import Mathlib

/-!
Shallow embedding of the Connect-4 match engine of this repository:
`backend/utils/checkWinner.js`, `backend/services/gameService.js`,
`backend/bot/botLogic.js`, and the socket controller
(`controllers/gameController.js`).  Boards are 6 rows by 7 columns;
row 0 is the top row and row 5 the bottom row.
-/

set_option maxRecDepth 10000
set_option maxHeartbeats 2000000

namespace Connect4

/-- Disc symbols: the JS strings "X" and "O". -/
inductive Symbol where
  | X
  | O
deriving DecidableEq, Repr

/-- A cell holds `null` (empty) or a disc symbol.  `none` models both JS
`null` and `undefined` (reads outside the allocated grid), which are the
two falsy cell values the source ever observes. -/
abbrev Cell := Option Symbol

/-- A board maps (row, col) to a cell.  The engine allocates rows 0-5 and
columns 0-6; on boards it builds, every cell outside that range is `none`,
matching the `undefined` a JS out-of-range read produces. -/
abbrev Board := Nat → Nat → Cell

/-- gameService.js `createEmptyBoard`: 6 rows of 7 `null`s. -/
def createEmptyBoard : Board := fun _ _ => none

/-- JS in-place assignment `board[r][c] = v`, as a functional update. -/
def setCell (b : Board) (r c : Nat) (v : Cell) : Board :=
  fun r2 c2 => if r2 = r ∧ c2 = c then v else b r2 c2

/-- The four scan directions of checkWinner.js: horizontal, vertical,
diagonal down-right, diagonal down-left. -/
def directions : List (Int × Int) := [(0, 1), (1, 0), (1, 1), (1, -1)]

/-- The `while` condition of checkWinner.js: `nr`, `nc` within bounds and
`board[nr][nc] === symbol`. -/
def goodCell (b : Board) (s : Symbol) (r c : Int) : Bool :=
  decide (0 ≤ r) && decide (0 ≤ c) && decide (r < 6) && decide (c < 7) &&
    decide (b r.toNat c.toNat = some s)

/-- The inner `while` loop of checkWinner.js.  `count` starts at 1, is
incremented once per iteration, and the function returns as soon as it
reaches 4, so the body runs at most three times; `fuel` counts the
iterations still allowed after the current one (2 on entry, standing for
`count = 1`). -/
def scanLine (b : Board) (s : Symbol) (dr dc : Int) :
    Nat → Int → Int → List (Nat × Nat) → Option (List (Nat × Nat))
  | fuel, nr, nc, positions =>
    if goodCell b s nr nc then
      match fuel with
      | 0 => some (positions ++ [(nr.toNat, nc.toNat)])
      | f + 1 =>
        scanLine b s dr dc f (nr + dr) (nc + dc) (positions ++ [(nr.toNat, nc.toNat)])
    else none

/-- Body of the row/column loops of checkWinner.js at one seed cell: skip
cells not holding the symbol, otherwise try the four directions in order,
each starting one step away from the seed with `winningPositions`
initialised to the seed cell. -/
def checkCell (b : Board) (s : Symbol) (r c : Nat) : Option (List (Nat × Nat)) :=
  if b r c = some s then
    directions.findSome? fun d =>
      scanLine b s d.1 d.2 2 ((r : Int) + d.1) ((c : Int) + d.2) [(r, c)]
  else none

/-- Return value of checkWinner.js. -/
structure WinResult where
  isWinner : Bool
  winningPositions : List (Nat × Nat)
deriving DecidableEq, Repr

/-- checkWinner.js: scan every cell in row-major order; for each seed cell
holding the symbol, walk each of the four directions and return the first
run that reaches a count of 4; otherwise report no winner. -/
def checkWinner (b : Board) (s : Symbol) : WinResult :=
  match (List.range 6).findSome?
      (fun r => (List.range 7).findSome? fun c => checkCell b s r c) with
  | some positions => ⟨true, positions⟩
  | none => ⟨false, []⟩

/-- The row loop of gameService.js `dropDisc`, scanning from `row` down
to 0 for the first falsy cell. -/
def dropDiscAux (b : Board) (column : Nat) (symbol : Cell) : Nat → Board × Int
  | 0 => if (b 0 column).isNone then (setCell b 0 column symbol, 0) else (b, -1)
  | row + 1 =>
    if (b (row + 1) column).isNone then
      (setCell b (row + 1) column symbol, ((row : Int) + 1))
    else dropDiscAux b column symbol row

/-- gameService.js `dropDisc`: place the symbol in the lowest empty row of
the column and return the row, or return -1 when the column is full.  The
loop starts at `board.length - 1 = 5`.  The column is not range-checked:
for `column = 7` the reads see `undefined` (falsy) and the write lands
outside the 6x7 grid, exactly as in JS. -/
def dropDisc (b : Board) (column : Nat) (symbol : Cell) : Board × Int :=
  dropDiscAux b column symbol 5

/-- gameService.js `isBoardFull`: every cell of the allocated grid truthy. -/
def isBoardFull (b : Board) : Bool :=
  (List.range 6).all fun r => (List.range 7).all fun c => (b r c).isSome

/-- A socket (or the bot's socket-shaped object): id, username, bot flag.
Real sockets have no `isBot` property, which reads as `undefined` (false). -/
structure Player where
  id : String
  username : String
  isBot : Bool
deriving DecidableEq, Repr

/-- One game object of gameService.js.  `symbols` and `usernames` are the
two keyed objects; `disconnectTimers` stores per-username timer handles,
modelled as a pending flag (`setTimeout` registers it, `clearTimeout`
cancels it). -/
structure Game where
  board : Board
  players : List Player
  symbols : String → Option Symbol
  usernames : String → Option String
  turn : String
  isBotGame : Bool
  disconnectTimers : String → Bool

/-- The in-memory registry `games`, an object keyed by game id. -/
abbrev Games := List (String × Game)

/-- JS property read `games[gameId]`. -/
def getGame : Games → String → Option Game
  | [], _ => none
  | (gid, g) :: rest, gameId => if gid = gameId then some g else getGame rest gameId

/-- JS property write `games[gameId] = game` (keys are unique in the
registry; an existing entry is updated in place). -/
def setGame : Games → String → Game → Games
  | [], gameId, g => [(gameId, g)]
  | (gid, g0) :: rest, gameId, g =>
    if gid = gameId then (gameId, g) :: rest else (gid, g0) :: setGame rest gameId g

/-- JS `delete games[gameId]`. -/
def removeGame : Games → String → Games
  | [], _ => []
  | (gid, g) :: rest, gameId =>
    if gid = gameId then removeGame rest gameId else (gid, g) :: removeGame rest gameId

/-- Outbound effects of the engine, in emission order: socket.io
broadcasts, the Kafka analytics event, and the database write.  Board
payloads are omitted from events; they mirror the registry state. -/
inductive Event where
  | gameStarted (gameId : String) (players : List String) (turn : String)
  | opponentFound (toPlayer : String) (opponent : String)
  | moveMade (gameId : String) (column : Nat) (row : Nat) (symbol : Symbol)
  | gameOver (gameId : String) (winner : Option String) (draw : Bool)
      (winningPositions : List (Nat × Nat)) (reason : Option String)
  | kafkaGameOver (winner : Option String)
  | savedGame (winner : Option String) (isDraw : Bool)
  | playerDisconnected (gameId : String)
  | playerRejoined (gameId : String)
  | rejoinSuccess (gameId : String) (yourTurn : Bool) (opponent : Option String)
  | rejoinFailed
deriving DecidableEq, Repr

/-- botLogic.js fixed symbols. -/
def botSymbol : Symbol := Symbol.O

/-- botLogic.js fixed opponent symbol. -/
def playerSymbol : Symbol := Symbol.X

/-- botLogic.js `getValidColumns`: columns whose top cell is `null`. -/
def getValidColumns (board : Board) : List Nat :=
  (List.range 7).filter fun c => decide (board 0 c = none)

/-- The row loop of botLogic.js `simulateMove`, from `ROWS - 1` down to 0. -/
def simulateMoveAux (b : Board) (col : Nat) (symbol : Symbol) : Nat → Board
  | 0 => if (b 0 col).isNone then setCell b 0 col (some symbol) else b
  | r + 1 =>
    if (b (r + 1) col).isNone then setCell b (r + 1) col (some symbol)
    else simulateMoveAux b col symbol r

/-- botLogic.js `simulateMove`: drop on a copied board, returning the board. -/
def simulateMove (board : Board) (col : Nat) (symbol : Symbol) : Board :=
  simulateMoveAux board col symbol 5

/-- JS truthiness of the object checkWinner.js returns: an object is
always truthy, whether or not its `isWinner` field holds. -/
def jsTruthy (_ : WinResult) : Bool := true

/-- botLogic.js: try-to-win loop, try-to-block loop, centre preference,
preferred order near the centre, then any valid column.  The win/block
loops test `if (checkWinner(...))` - the truthiness of the returned
object - so their condition holds for every candidate column. -/
def botLogic (board : Board) : Nat :=
  let validColumns := getValidColumns board
  match validColumns.find?
      (fun col => jsTruthy (checkWinner (simulateMove board col botSymbol) botSymbol)) with
  | some col => col
  | none =>
    match validColumns.find?
        (fun col => jsTruthy (checkWinner (simulateMove board col playerSymbol) playerSymbol)) with
    | some col => col
    | none =>
      if validColumns.contains 3 then 3
      else
        match [3, 2, 4, 1, 5, 0, 6].find? (fun col => validColumns.contains col) with
        | some col => col
        | none => validColumns.headD 0

/-- Outcome of one `GameService.handleMove` call: the updated registry,
the emitted events in order, and the bot move scheduled by `setTimeout`
(the player object and the column `botLogic` already computed), if any. -/
structure MoveOutcome where
  games : Games
  events : List Event
  botTask : Option (Player × Nat)

/-- gameService.js `GameService.handleMove`.  Missing game or a move from
a socket that is not `game.turn` returns silently; a full column returns
silently after the failed drop; otherwise the disc is placed, `moveMade`
is broadcast, the winner scan runs, and the call ends in the win branch,
the draw branch, or the turn flip plus optional bot scheduling.  The two
`none` fallbacks below are unreachable for games built by
`startNewGame`: `turn` always names a seat that has a symbol, and a
two-seat game always contains a player with a different id (JS would
throw there rather than return). -/
def handleMove (sock : Player) (gameId : String) (column : Nat) (games : Games) :
    MoveOutcome :=
  match getGame games gameId with
  | none => ⟨games, [], none⟩
  | some game =>
    if game.turn ≠ sock.id then ⟨games, [], none⟩
    else
      match game.symbols sock.id with
      | none => ⟨games, [], none⟩
      | some symbol =>
        let dropped := dropDisc game.board column (some symbol)
        if dropped.2 = -1 then ⟨games, [], none⟩
        else
          let board2 := dropped.1
          let moveEv := Event.moveMade gameId column dropped.2.toNat symbol
          let winResult := checkWinner board2 symbol
          if winResult.isWinner then
            ⟨removeGame games gameId,
             [moveEv,
              Event.gameOver gameId (some sock.username) false
                winResult.winningPositions none,
              Event.kafkaGameOver (some sock.username),
              Event.savedGame (some sock.username) false],
             none⟩
          else if isBoardFull board2 then
            ⟨removeGame games gameId,
             [moveEv,
              Event.gameOver gameId none true [] none,
              Event.kafkaGameOver (some sock.username),
              Event.savedGame none true],
             none⟩
          else
            match game.players.find? fun p => p.id ≠ sock.id with
            | none => ⟨games, [], none⟩
            | some nextPlayer =>
              let game2 := { game with board := board2, turn := nextPlayer.id }
              ⟨setGame games gameId game2, [moveEv],
               if game.isBotGame && nextPlayer.isBot then
                 some (nextPlayer, botLogic board2)
               else none⟩

/-- gameService.js `startNewGame` (the uuid is a parameter; the source
draws it from `uuidv4()`).  Object literals bind the later key on
collision, hence the second seat is tested first; the two socket ids are
distinct in every run. -/
def startNewGame (p1 p2 : Player) (gameId : String) (games : Games)
    (isBotGame : Bool) : Games × List Event :=
  let game : Game := {
    board := createEmptyBoard
    players := [p1, p2]
    symbols := fun k =>
      if k = p2.id then some Symbol.O else if k = p1.id then some Symbol.X else none
    usernames := fun u =>
      if u = p2.username then some p2.id
      else if u = p1.username then some p1.id else none
    turn := p1.id
    isBotGame := isBotGame
    disconnectTimers := fun _ => false }
  (setGame games gameId game,
   [Event.gameStarted gameId [p1.username, p2.username] p1.username,
    Event.opponentFound p1.id p2.username,
    Event.opponentFound p2.id p1.username])

/-- A 30-second forfeiture timer registered by the disconnect handler of
gameController.js: the game it belongs to, the username key it is stored
under in `game.disconnectTimers`, and the opponent captured by the
`setTimeout` closure. -/
structure GraceTimer where
  gameId : String
  usernameKey : String
  opponent : Player
deriving DecidableEq, Repr

/-- The `for (let gameId in games)` loop of the disconnect handler in
gameController.js: for every game in which the disconnecting socket holds
a symbol and an opponent entry exists, broadcast `playerDisconnected` and
register a grace timer keyed by the socket's username. -/
def disconnectScan (sock : Player) : Games → Games × List Event × List GraceTimer
  | [] => ([], [], [])
  | (gid, game) :: rest =>
    let tail := disconnectScan sock rest
    if (game.symbols sock.id).isSome then
      match game.players.find? fun p => p.id ≠ sock.id with
      | some opp =>
        ((gid, { game with disconnectTimers :=
            fun u => if u = sock.username then true else game.disconnectTimers u })
           :: tail.1,
         Event.playerDisconnected gid :: tail.2.1,
         ⟨gid, sock.username, opp⟩ :: tail.2.2)
      | none => ((gid, game) :: tail.1, tail.2.1, tail.2.2)
    else ((gid, game) :: tail.1, tail.2.1, tail.2.2)

/-- The `setTimeout` callback of the disconnect handler: broadcast
`gameOver` naming the captured opponent's username the winner with reason
"disconnect timeout", then delete the registry entry.  No persistence
write and no analytics event occur on this path. -/
def fireGraceTimer (t : GraceTimer) (games : Games) : Games × List Event :=
  (removeGame games t.gameId,
   [Event.gameOver t.gameId (some t.opponent.username) false []
      (some "disconnect timeout")])

/-- JS object write `f[k] = v` / `delete f[k]` on a string-keyed object. -/
def setKey {α : Type} (f : String → Option α) (k : String) (v : Option α) :
    String → Option α :=
  fun k2 => if k2 = k then v else f k2

/-- The rejoin handler of gameController.js: the first registered game
whose `usernames` object contains the identity is rebound to the new
socket - the timer stored under the username is cleared, the symbol is
rekeyed from the old socket id to the new one, `usernames` and `players`
are updated - and `rejoinSuccess` (whose turn flag is
`game.turn === socket.id`, with `game.turn` itself left untouched) and
`playerRejoined` are emitted.  Only when no game matches is
`rejoinFailed` emitted. -/
def rejoinScan (sock : Player) (username : String) : Games → Games × List Event
  | [] => ([], [Event.rejoinFailed])
  | (gid, game) :: rest =>
    match game.usernames username with
    | some oldSocketId =>
      let symbols2 :=
        setKey (setKey game.symbols sock.id (game.symbols oldSocketId)) oldSocketId none
      let usernames2 := setKey game.usernames username (some sock.id)
      let players2 := game.players.map fun p => if p.id = oldSocketId then sock else p
      let timers2 := fun u => if u = username then false else game.disconnectTimers u
      let game2 : Game :=
        { game with
          symbols := symbols2
          usernames := usernames2
          players := players2
          disconnectTimers := timers2 }
      ((gid, game2) :: rest,
       [Event.rejoinSuccess gid (decide (game.turn = sock.id))
          ((players2.find? fun p => p.id ≠ sock.id).map Player.username),
        Event.playerRejoined gid])
    | none =>
      let tail := rejoinScan sock username rest
      ((gid, game) :: tail.1, tail.2)

/-- Following the spec: the board contains 4 cells holding the symbol
that are contiguous along a row, a column, or either diagonal (a starting
cell plus three further steps along one of the four axes, all inside the
6x7 grid). -/
def fourInARow (b : Board) (s : Symbol) : Bool :=
  (List.range 6).any fun r => (List.range 7).any fun c =>
    directions.any fun d =>
      (List.range 4).all fun i =>
        goodCell b s ((r : Int) + i * d.1) ((c : Int) + i * d.2)

/-- The occupied cells of the 6x7 grid. -/
def occupiedCells (b : Board) : Finset (Nat × Nat) :=
  (Finset.range 6 ×ˢ Finset.range 7).filter fun p => (b p.1 p.2).isSome = true

/-- Number of occupied cells of the 6x7 grid. -/
def countOccupied (b : Board) : Nat := (occupiedCells b).card

/-- Gravity on the 6x7 grid: a cell is occupied only if every cell below
it in the same column (larger row index) is occupied. -/
def gravityB (b : Board) : Bool :=
  (List.range 6).all fun r => (List.range 7).all fun c =>
    (List.range 6).all fun r2 =>
      !(decide (r < r2)) || !(b r c).isSome || (b r2 c).isSome

/-- Fold a sequence of (column, symbol) drops over a board. -/
def dropAll (b : Board) (moves : List (Nat × Symbol)) : Board :=
  moves.foldl (fun bd m => (dropDisc bd m.1 (some m.2)).1) b

/-- Every drop of the sequence is accepted (`dropDisc` never returns -1). -/
def allAcceptedB : Board → List (Nat × Symbol) → Bool
  | _, [] => true
  | b, m :: ms =>
    decide ((dropDisc b m.1 (some m.2)).2 ≠ -1) &&
      allAcceptedB (dropDisc b m.1 (some m.2)).1 ms

/-- A 4-cell winning line for the symbol: the reported list is exactly
four in-grid cells holding the symbol, each one step from the previous
along a single one of the four scan axes. -/
def isWinLine (b : Board) (s : Symbol) (ps : List (Nat × Nat)) : Prop :=
  ∃ dr dc : Int, (dr, dc) ∈ directions ∧
    ∃ p0 p1 p2 p3 : Nat × Nat,
      ps = [p0, p1, p2, p3] ∧
      (∀ p ∈ ps, p.1 < 6 ∧ p.2 < 7 ∧ b p.1 p.2 = some s) ∧
      ((p1.1 : Int) = p0.1 + dr ∧ (p1.2 : Int) = p0.2 + dc) ∧
      ((p2.1 : Int) = p1.1 + dr ∧ (p2.2 : Int) = p1.2 + dc) ∧
      ((p3.1 : Int) = p2.1 + dr ∧ (p3.2 : Int) = p2.2 + dc)

/-- Seat 0 of the Scenario A game. -/
def alice : Player := ⟨"a1", "alice", false⟩

/-- Seat 1 of the Scenario A game. -/
def bob : Player := ⟨"b1", "bob", false⟩

/-- Registry after matchmaking pairs alice and bob (game id "g"). -/
def demoGames0 : Games := (startNewGame alice bob "g" [] false).1

/-- Apply one move of the Scenario A script and keep the registry. -/
def demoStep (sock : Player) (col : Nat) (gs : Games) : Games :=
  (handleMove sock "g" col gs).games

/-- Registry after six alternating moves: alice stacks column 0, bob
stacks column 1. -/
def demoGames6 : Games :=
  demoStep bob 1 (demoStep alice 0 (demoStep bob 1
    (demoStep alice 0 (demoStep bob 1 (demoStep alice 0 demoGames0)))))

/-- Outcome of alice's fourth drop in column 0: the vertical win. -/
def demoFinal : MoveOutcome := handleMove alice "g" 0 demoGames6

/-- The human seat of the bot game. -/
def harry : Player := ⟨"h1", "harry", false⟩

/-- The bot seat produced by `createBotSocket` in botPlayer.js. -/
def botMaster : Player := ⟨"BOT_q1w2e3", "BotMaster", true⟩

/-- Mid-game board of the bot game: the bot (O) has three discs stacked
in column 6 and can win by dropping there; the human (X) holds
(5,0), (5,1), (4,0). -/
def botBoard : Board := fun r c =>
  if (r = 5 ∧ c = 6) ∨ (r = 4 ∧ c = 6) ∨ (r = 3 ∧ c = 6) then some Symbol.O
  else if (r = 5 ∧ c = 0) ∨ (r = 5 ∧ c = 1) ∨ (r = 4 ∧ c = 0) then some Symbol.X
  else none

/-- The bot game session holding `botBoard`, human to move. -/
def botGame : Game :=
  { board := botBoard
    players := [harry, botMaster]
    symbols := fun k =>
      if k = "BOT_q1w2e3" then some Symbol.O
      else if k = "h1" then some Symbol.X else none
    usernames := fun u =>
      if u = "BotMaster" then some "BOT_q1w2e3"
      else if u = "harry" then some "h1" else none
    turn := "h1"
    isBotGame := true
    disconnectTimers := fun _ => false }

/-- Outcome of the human's (non-terminal) move in column 1. -/
def botOutcome : MoveOutcome := handleMove harry "gb" 1 [("gb", botGame)]

/-- The bot game board after the human's move in column 1. -/
def botBoard2 : Board := (dropDisc botBoard 1 (some Symbol.X)).1

/-- Seat 1 of the rejoin demo, on its original socket "b1". -/
def bobOld : Player := ⟨"b1", "bob", false⟩

/-- The rejoin demo session: alice versus bob, bob ("b1") to move, no
disconnect timer pending for anyone. -/
def demoGame9 : Game :=
  { board := createEmptyBoard
    players := [⟨"a1", "alice", false⟩, bobOld]
    symbols := fun k =>
      if k = "b1" then some Symbol.O else if k = "a1" then some Symbol.X else none
    usernames := fun u =>
      if u = "bob" then some "b1" else if u = "alice" then some "a1" else none
    turn := "b1"
    isBotGame := false
    disconnectTimers := fun _ => false }

/-- Registry of the rejoin demo. -/
def demoGames9 : Games := [("g9", demoGame9)]

/-- Bob's fresh socket used for the rejoin request. -/
def bobNew : Player := ⟨"b2", "bob", false⟩

/-- Player for the out-of-range demo. -/
def pat : Player := ⟨"p1", "pat", false⟩

/-- Opponent for the out-of-range demo. -/
def quinn : Player := ⟨"p2", "quinn", false⟩

/-- Registry of the out-of-range demo: a fresh game, pat to move. -/
def demoGames10 : Games := (startNewGame pat quinn "gx" [] false).1

/-- Board for the claim C7 witness: columns 0 and 1 are completely full,
column 2 is the leftmost column with an empty top cell. -/
def demoBoard7 : Board := fun r c =>
  if r < 6 ∧ c < 2 then some Symbol.X else none

/-- Move list for the claim C2 witness. -/
def demoMoves : List (Nat × Symbol) :=
  [(3, Symbol.X), (3, Symbol.O), (2, Symbol.X), (4, Symbol.O), (3, Symbol.X)]

/-- Board for the claim C1 witness: four X discs stacked in column 0. -/
def demoWinBoard : Board := fun r c =>
  if c = 0 ∧ 2 ≤ r ∧ r < 6 then some Symbol.X else none

/-- When every cell of the column up to `row` is occupied, the drop loop
falls through and reports -1 without touching the board. -/
lemma dropDiscAux_of_full (b : Board) (col : Nat) (s : Cell) :
    ∀ row, (∀ r, r ≤ row → (b r col).isSome = true) →
      dropDiscAux b col s row = (b, -1) := by
  intro row
  induction row with
  | zero =>
    intro h
    have h0 := h 0 (Nat.le_refl 0)
    have hnn : (b 0 col).isNone = false := by
      cases hcell : b 0 col with
      | none => rw [hcell] at h0; simp at h0
      | some v => rfl
    unfold dropDiscAux
    simp [hnn]
  | succ row ih =>
    intro h
    have htop := h (row + 1) (Nat.le_refl _)
    have hnn : (b (row + 1) col).isNone = false := by
      cases hcell : b (row + 1) col with
      | none => rw [hcell] at htop; simp at htop
      | some v => rfl
    unfold dropDiscAux
    simp only [hnn, Bool.false_eq_true, if_false]
    exact ih fun r hr => h r (Nat.le_succ_of_le hr)

/-- When the column has an empty cell at or below `row`, the drop loop
writes the symbol into the lowest such cell and returns its row; every
cell strictly below it is occupied. -/
lemma dropDiscAux_of_empty (b : Board) (col : Nat) (s : Cell) :
    ∀ row, (∃ r, r ≤ row ∧ b r col = none) →
      ∃ rn, rn ≤ row ∧ b rn col = none ∧
        (∀ r2, rn < r2 → r2 ≤ row → (b r2 col).isSome = true) ∧
        dropDiscAux b col s row = (setCell b rn col s, (rn : Int)) := by
  intro row
  induction row with
  | zero =>
    intro h
    rcases h with ⟨r, hr, hcell⟩
    have hr0 : r = 0 := by omega
    subst hr0
    refine ⟨0, Nat.le_refl 0, hcell, ?_, ?_⟩
    · intro r2 h1 h2; omega
    · unfold dropDiscAux
      simp [hcell]
  | succ row ih =>
    intro h
    by_cases hc : b (row + 1) col = none
    · refine ⟨row + 1, Nat.le_refl _, hc, ?_, ?_⟩
      · intro r2 h1 h2; omega
      · unfold dropDiscAux
        simp [hc]
    · rcases h with ⟨r, hr, hcell⟩
      have hrow : r ≤ row := by
        by_contra hcon
        have : r = row + 1 := by omega
        rw [this] at hcell
        exact hc hcell
      rcases ih ⟨r, hrow, hcell⟩ with ⟨rn, hrn, hnone, hbelow, heq⟩
      have hnn : (b (row + 1) col).isNone = false := by
        cases hcell2 : b (row + 1) col with
        | none => exact absurd hcell2 hc
        | some v => rfl
      refine ⟨rn, Nat.le_succ_of_le hrn, hnone, ?_, ?_⟩
      · intro r2 h1 h2
        by_cases h3 : r2 ≤ row
        · exact hbelow r2 h1 h3
        · have : r2 = row + 1 := by omega
          rw [this]
          exact Option.ne_none_iff_isSome.mp hc
      · unfold dropDiscAux
        simp only [hnn, Bool.false_eq_true, if_false]
        exact heq

/-- Full-column form of `dropDisc` at the real board height. -/
lemma dropDisc_of_full (b : Board) (col : Nat) (s : Cell)
    (h : ∀ r, r < 6 → (b r col).isSome = true) :
    dropDisc b col s = (b, -1) :=
  dropDiscAux_of_full b col s 5 fun r hr => h r (by omega)

/-- In-grid form of `dropDisc` when the column has an empty cell. -/
lemma dropDisc_of_empty (b : Board) (col : Nat) (s : Cell)
    (h : ∃ r, r < 6 ∧ b r col = none) :
    ∃ rn, rn < 6 ∧ b rn col = none ∧
      (∀ r2, rn < r2 → r2 < 6 → (b r2 col).isSome = true) ∧
      dropDisc b col s = (setCell b rn col s, (rn : Int)) := by
  rcases h with ⟨r, hr, hcell⟩
  rcases dropDiscAux_of_empty b col s 5 ⟨r, by omega, hcell⟩ with
    ⟨rn, hrn, hnone, hbelow, heq⟩
  exact ⟨rn, by omega, hnone, fun r2 h1 h2 => hbelow r2 h1 (by omega), heq⟩

/-- Claim C3: a rejected move - one from the seat that is not
`game.turn`, or one targeting a full column - produces no state change at
all: the registry (hence board and turn) is returned untouched, no event
is emitted, and no bot move is scheduled. -/
theorem claim3_rejected_move_no_change (sock : Player) (gameId : String)
    (column : Nat) (games : Games) (game : Game)
    (hg : getGame games gameId = some game)
    (hrej : game.turn ≠ sock.id ∨ ∀ r, r < 6 → (game.board r column).isSome = true) :
    handleMove sock gameId column games = ⟨games, [], none⟩ := by
  rcases hrej with ht | hfull
  · simp [handleMove, hg, ht]
  · by_cases ht : game.turn = sock.id
    · cases hsym : game.symbols sock.id with
      | none => simp [handleMove, hg, ht, hsym]
      | some symbol =>
        have hdrop := dropDisc_of_full game.board column (some symbol) hfull
        simp [handleMove, hg, ht, hsym, hdrop]
    · simp [handleMove, hg, ht]

/-- Witness for claim C3: in the fresh Scenario A game it is alice's
turn, so bob's move request is rejected with no state change. -/
theorem claim3_witness :
    handleMove bob "g" 3 demoGames0 = ⟨demoGames0, [], none⟩ :=
  claim3_rejected_move_no_change bob "g" 3 demoGames0 _ rfl (Or.inl (by decide))

/-- Claim C4: once a session's registry entry has been removed (the
TERMINAL state of this engine), any further move request for that game id
is a no-op: no state change, no events, no bot scheduling. -/
theorem claim4_terminal_noop (sock : Player) (gameId : String) (column : Nat)
    (games : Games) (hg : getGame games gameId = none) :
    handleMove sock gameId column games = ⟨games, [], none⟩ := by
  unfold handleMove
  rw [hg]

/-- Witness for claim C4: after alice's winning move evicted game "g",
a further move request by bob is a no-op. -/
theorem claim4_witness :
    handleMove bob "g" 4 demoFinal.games = ⟨demoFinal.games, [], none⟩ :=
  claim4_terminal_noop bob "g" 4 demoFinal.games rfl

/-- Counterexample for claim C5: in the Scenario A run (alice stacks
column 0, bob stacks column 1), the terminal broadcast does NOT carry the
line [[5,0],[4,0],[3,0],[2,0]] stated by the claim; the scan visits rows
top-down, so the broadcast carries [[2,0],[3,0],[4,0],[5,0]]. -/
theorem claim5_counterexample :
    Event.gameOver "g" (some "alice") false [(5, 0), (4, 0), (3, 0), (2, 0)] none
        ∉ demoFinal.events ∧
      Event.gameOver "g" (some "alice") false [(2, 0), (3, 0), (4, 0), (5, 0)] none
        ∈ demoFinal.events := by
  decide

/-- Claim C5 as amended: the Scenario A run ends with `moveMade` and a
`gameOver` broadcast naming seat 0's identity the winner with the
qualifying 4 cells in scan order - topmost first - namely
[[2,0],[3,0],[4,0],[5,0]]; the terminal side effects fire and the
registry entry is evicted. -/
theorem claim5_scenario_a :
    demoFinal.events =
      [Event.moveMade "g" 0 2 Symbol.X,
       Event.gameOver "g" (some "alice") false [(2, 0), (3, 0), (4, 0), (5, 0)] none,
       Event.kafkaGameOver (some "alice"),
       Event.savedGame (some "alice") false] ∧
      (getGame demoFinal.games "g").isSome = false := by
  decide

/-- Claim C6, the code bug: after the human's non-terminal move in the
bot game, a bot move is indeed scheduled automatically, but its column is
0 - the leftmost non-full column - even though dropping in column 6 would
win for the bot (and column 0 would not): the win/block loops of
botLogic.js test the truthiness of the object `checkWinner` returns, not
its `isWinner` field. -/
theorem claim6_bot_ignores_winning_column :
    botOutcome.events = [Event.moveMade "gb" 1 4 Symbol.X] ∧
      botOutcome.botTask = some (botMaster, 0) ∧
      (checkWinner (simulateMove botBoard2 6 Symbol.O) Symbol.O).isWinner = true ∧
      (checkWinner (simulateMove botBoard2 0 Symbol.O) Symbol.O).isWinner = false := by
  decide

/-- Counterexample for claim C8: with the bot occupying the opposing
seat, expiry of the grace timer still declares the bot's username
("BotMaster") the winner - not "no one" - and emits no persistence write
and no analytics event; only the gameOver broadcast fires before the
entry is evicted. -/
theorem claim8_counterexample :
    botMaster.isBot = true ∧
      (disconnectScan harry [("gb", botGame)]).2.2 =
        [⟨"gb", "harry", botMaster⟩] ∧
      (fireGraceTimer ⟨"gb", "harry", botMaster⟩ [("gb", botGame)]).2 =
        [Event.gameOver "gb" (some "BotMaster") false [] (some "disconnect timeout")] ∧
      (getGame (fireGraceTimer ⟨"gb", "harry", botMaster⟩ [("gb", botGame)]).1 "gb").isSome
        = false := by
  decide

/-- Counterexample for claim C9: bob never disconnected (no grace timer
pending) and it is bob's seat to move (`turn` holds bob's old socket id
"b1"), yet a rejoin on a fresh socket succeeds instead of reporting
REJOIN_FAILED, and its snapshot reports `turn = false` - the stored turn
still names the old socket id, so the snapshot misreports whose turn it
is. -/
theorem claim9_counterexample :
    demoGame9.disconnectTimers "bob" = false ∧
      demoGame9.turn = "b1" ∧
      demoGame9.usernames "bob" = some "b1" ∧
      (rejoinScan bobNew "bob" demoGames9).2 =
        [Event.rejoinSuccess "g9" false (some "alice"), Event.playerRejoined "g9"] := by
  decide

/-- Pointwise reading of the gravity invariant. -/
lemma gravityB_iff (b : Board) :
    gravityB b = true ↔
      ∀ r c r2, r < 6 → c < 7 → r2 < 6 → r < r2 →
        (b r c).isSome = true → (b r2 c).isSome = true := by
  unfold gravityB
  simp only [List.all_eq_true, List.mem_range]
  constructor
  · intro h r c r2 hr hc hr2 hlt hsome
    have hb := h r hr c hc r2 hr2
    simp only [Bool.or_eq_true, Bool.not_eq_true', decide_eq_false_iff_not] at hb
    rcases hb with (h1 | h2) | h3
    · exact absurd hlt h1
    · rw [h2] at hsome
      exact absurd hsome (by simp)
    · exact h3
  · intro h r hr c hc r2 hr2
    simp only [Bool.or_eq_true, Bool.not_eq_true', decide_eq_false_iff_not]
    by_cases hlt : r < r2
    · by_cases hsome : (b r c).isSome = true
      · exact Or.inr (h r c r2 hr hc hr2 hlt hsome)
      · exact Or.inl (Or.inr (by simpa using hsome))
    · exact Or.inl (Or.inl hlt)

/-- Writing a symbol into an in-grid empty cell adds that cell to the
occupied set. -/
lemma occupiedCells_setCell (b : Board) (r c : Nat) (s : Symbol)
    (hr : r < 6) (hc : c < 7) :
    occupiedCells (setCell b r c (some s)) = insert (r, c) (occupiedCells b) := by
  ext p
  obtain ⟨pr, pc⟩ := p
  simp only [occupiedCells, Finset.mem_filter, Finset.mem_insert,
    Finset.mem_product, Finset.mem_range, setCell, Prod.mk.injEq]
  by_cases hp : pr = r ∧ pc = c
  · obtain ⟨h1, h2⟩ := hp
    subst h1
    subst h2
    simp [hr, hc]
  · simp [hp]

/-- Counting version of `occupiedCells_setCell` for a previously empty
cell. -/
lemma countOccupied_setCell (b : Board) (r c : Nat) (s : Symbol)
    (hr : r < 6) (hc : c < 7) (hempty : b r c = none) :
    countOccupied (setCell b r c (some s)) = countOccupied b + 1 := by
  unfold countOccupied
  rw [occupiedCells_setCell b r c s hr hc, Finset.card_insert_of_not_mem]
  simp [occupiedCells, hempty]

/-- An accepted drop into a valid column occupies exactly one more cell. -/
lemma countOccupied_dropDisc (b : Board) (col : Nat) (s : Symbol) (hc : col < 7)
    (hacc : (dropDisc b col (some s)).2 ≠ -1) :
    countOccupied (dropDisc b col (some s)).1 = countOccupied b + 1 := by
  by_cases hex : ∃ r, r < 6 ∧ b r col = none
  · rcases dropDisc_of_empty b col (some s) hex with ⟨rn, hrn, hnone, _, heq⟩
    rw [heq]
    exact countOccupied_setCell b rn col s hrn hc hnone
  · exfalso
    apply hacc
    push_neg at hex
    rw [dropDisc_of_full b col (some s)
      fun r hr => Option.ne_none_iff_isSome.mp (hex r hr)]

/-- A drop into a valid column preserves gravity: the disc lands in the
lowest empty cell, below which every cell is occupied. -/
lemma gravityB_dropDisc (b : Board) (col : Nat) (s : Symbol) (hc : col < 7)
    (hg : gravityB b = true) : gravityB (dropDisc b col (some s)).1 = true := by
  by_cases hex : ∃ r, r < 6 ∧ b r col = none
  · rcases dropDisc_of_empty b col (some s) hex with ⟨rn, hrn, hnone, hbelow, heq⟩
    rw [gravityB_iff] at hg
    have hgoal : gravityB (setCell b rn col (some s)) = true := by
      rw [gravityB_iff]
      intro r c2 r2 hr hc2 hr2 hlt hsome
      by_cases hp : r2 = rn ∧ c2 = col
      · simp [setCell, hp]
      · have htarget : setCell b rn col (some s) r2 c2 = b r2 c2 := by
          simp [setCell, hp]
        rw [htarget]
        by_cases hpsrc : r = rn ∧ c2 = col
        · obtain ⟨h1, h2⟩ := hpsrc
          subst h1
          subst h2
          exact hbelow r2 hlt hr2
        · have hsrc : setCell b rn col (some s) r c2 = b r c2 := by
            simp [setCell, hpsrc]
          rw [hsrc] at hsome
          exact hg r c2 r2 hr hc2 hr2 hlt hsome
    rw [heq]
    exact hgoal
  · push_neg at hex
    rw [dropDisc_of_full b col (some s)
      fun r hr => Option.ne_none_iff_isSome.mp (hex r hr)]
    exact hg

/-- Folding a fully accepted, in-range drop sequence adds one occupied
cell per move and preserves gravity. -/
lemma dropAll_count_gravity :
    ∀ (moves : List (Nat × Symbol)) (b : Board),
      (∀ m ∈ moves, m.1 < 7) → allAcceptedB b moves = true → gravityB b = true →
      countOccupied (dropAll b moves) = countOccupied b + moves.length ∧
        gravityB (dropAll b moves) = true := by
  intro moves
  induction moves with
  | nil =>
    intro b _ _ hg
    exact ⟨rfl, hg⟩
  | cons m ms ih =>
    intro b hv ha hg
    have hm : m.1 < 7 := hv m (List.mem_cons_self m ms)
    unfold allAcceptedB at ha
    rw [Bool.and_eq_true] at ha
    obtain ⟨ha1, ha2⟩ := ha
    have hacc : (dropDisc b m.1 (some m.2)).2 ≠ -1 := of_decide_eq_true ha1
    have hstep : countOccupied (dropDisc b m.1 (some m.2)).1 = countOccupied b + 1 :=
      countOccupied_dropDisc b m.1 m.2 hm hacc
    have hgrav : gravityB (dropDisc b m.1 (some m.2)).1 = true :=
      gravityB_dropDisc b m.1 m.2 hm hg
    have hfold : dropAll b (m :: ms) = dropAll (dropDisc b m.1 (some m.2)).1 ms := rfl
    rcases ih (dropDisc b m.1 (some m.2)).1
        (fun x hx => hv x (List.mem_cons_of_mem m hx)) ha2 hgrav with ⟨ihc, ihg⟩
    rw [hfold]
    refine ⟨?_, ihg⟩
    rw [ihc, hstep]
    simp only [List.length_cons]
    omega

/-- Claim C2: every sequence of accepted in-range drops applied from the
empty board yields a board with exactly one occupied cell per move, every
occupied cell satisfying gravity. -/
theorem claim2_count_and_gravity (moves : List (Nat × Symbol))
    (hv : ∀ m ∈ moves, m.1 < 7)
    (ha : allAcceptedB createEmptyBoard moves = true) :
    countOccupied (dropAll createEmptyBoard moves) = moves.length ∧
      gravityB (dropAll createEmptyBoard moves) = true := by
  have h0 : countOccupied createEmptyBoard = 0 := by decide
  have hg0 : gravityB createEmptyBoard = true := by decide
  rcases dropAll_count_gravity moves createEmptyBoard hv ha hg0 with ⟨h1, h2⟩
  refine ⟨?_, h2⟩
  rw [h1, h0]
  omega

/-- Witness for claim C2: a concrete accepted 5-move sequence leaves 5
occupied cells and a gravity-respecting board. -/
theorem claim2_witness :
    (∀ m ∈ demoMoves, m.1 < 7) ∧
      allAcceptedB createEmptyBoard demoMoves = true ∧
      countOccupied (dropAll createEmptyBoard demoMoves) = demoMoves.length ∧
      gravityB (dropAll createEmptyBoard demoMoves) = true := by
  have h := claim2_count_and_gravity demoMoves (by decide) (by decide)
  exact ⟨by decide, by decide, h.1, h.2⟩

/-- Finding the first element of a filtered list with a constant-true
predicate is finding the first element satisfying the filter. -/
lemma find?_true_filter {α : Type} (p : α → Bool) :
    ∀ l : List α, (l.filter p).find? (fun _ => true) = l.find? p := by
  intro l
  induction l with
  | nil => rfl
  | cons a l ih =>
    cases h : p a with
    | true => simp [List.filter_cons, h, List.find?_cons]
    | false => simp [List.filter_cons, h, List.find?_cons, ih]

/-- `find?` over `range n` returns the least index satisfying the
predicate. -/
lemma find?_range_eq_some (p : Nat → Bool) :
    ∀ n c, c < n → p c = true → (∀ i, i < c → p i = false) →
      (List.range n).find? p = some c := by
  intro n
  induction n with
  | zero => intro c hc; omega
  | succ n ih =>
    intro c hc hp hmin
    rw [List.range_succ, List.find?_append]
    by_cases h : c < n
    · rw [ih c h hp hmin]
      rfl
    · have hcn : c = n := by omega
      subst hcn
      have h1 : (List.range c).find? p = none := by
        rw [List.find?_eq_none]
        intro x hx
        rw [hmin x (List.mem_range.mp hx)]
        simp
      rw [h1]
      simp [List.find?, hp]

/-- Claim C7: for every board whose top row contains an empty cell, the
bot's column choice is the smallest column index whose top cell is empty,
regardless of winning or blocking opportunities elsewhere - the win/block
simulation tests the truthiness of the object `checkWinner` returns,
which holds whether or not `isWinner` does. -/
theorem claim7_bot_leftmost (board : Board) (c : Nat) (hc : c < 7)
    (hempty : board 0 c = none)
    (hmin : ∀ i, i < c → board 0 i ≠ none) :
    botLogic board = c := by
  have hfind : (getValidColumns board).find? (fun _ => true) = some c := by
    unfold getValidColumns
    rw [find?_true_filter]
    apply find?_range_eq_some _ 7 c hc
    · simpa using hempty
    · intro i hi
      simpa using hmin i hi
  unfold botLogic
  simp only [jsTruthy]
  rw [hfind]

/-- Witness for claim C7: on a board whose columns 0 and 1 are full, the
bot picks column 2. -/
theorem claim7_witness : botLogic demoBoard7 = 2 :=
  claim7_bot_leftmost demoBoard7 2 (by decide) (by decide)
    (fun i hi => by interval_cases i <;> decide)

/-- Deleting a key removes its registry entry. -/
lemma getGame_removeGame_self : ∀ (games : Games) (gameId : String),
    getGame (removeGame games gameId) gameId = none := by
  intro games gameId
  induction games with
  | nil => rfl
  | cons hd tl ih =>
    obtain ⟨gid, g⟩ := hd
    unfold removeGame
    by_cases h : gid = gameId
    · simp [h, ih]
    · simp only [h, if_false]
      unfold getGame
      simp [h, ih]

/-- Claim C8 as amended: for any registered game in which the
disconnecting socket holds a seat and an opponent entry exists, the
disconnect handler registers a grace timer capturing that opponent, and
firing that timer broadcasts gameOver naming the opponent's stored
username the winner (the bot's username included) with reason
"disconnect timeout", evicts the registry entry, and emits no
persistence write and no analytics event. -/
theorem claim8_forfeit (sock : Player) (gid : String) (game : Game) (opp : Player)
    (hseat : (game.symbols sock.id).isSome = true)
    (hopp : game.players.find? (fun p => p.id ≠ sock.id) = some opp) :
    (∀ games : Games, (gid, game) ∈ games →
      (⟨gid, sock.username, opp⟩ : GraceTimer) ∈ (disconnectScan sock games).2.2) ∧
      ∀ gs : Games,
        (fireGraceTimer ⟨gid, sock.username, opp⟩ gs).2 =
            [Event.gameOver gid (some opp.username) false []
              (some "disconnect timeout")] ∧
          getGame (fireGraceTimer ⟨gid, sock.username, opp⟩ gs).1 gid = none := by
  constructor
  · intro games
    induction games with
    | nil => simp
    | cons hd tl ih =>
      intro hmem
      rcases List.mem_cons.mp hmem with heq | htl
      · subst heq
        have hopp2 := hopp
        simp only [ne_eq, decide_not] at hopp2
        simp [disconnectScan, hseat, hopp2]
      · obtain ⟨gid0, g0⟩ := hd
        have h3 := ih htl
        by_cases h0 : (g0.symbols sock.id).isSome = true
        · cases hopp0 : g0.players.find? fun p => p.id ≠ sock.id with
          | none =>
            have hopp3 := hopp0
            simp only [ne_eq, decide_not] at hopp3
            simpa [disconnectScan, h0, hopp3] using h3
          | some opp0 =>
            have hopp3 := hopp0
            simp only [ne_eq, decide_not] at hopp3
            simp [disconnectScan, h0, hopp3]
            right
            exact h3
        · simpa [disconnectScan, h0] using h3
  · intro gs
    exact ⟨rfl, getGame_removeGame_self gs gid⟩

/-- Witness for claim C8: the concrete bot game - harry disconnects, the
scan registers the timer capturing BotMaster, and firing it emits the
gameOver broadcast naming BotMaster and evicts the entry. -/
theorem claim8_witness :
    (⟨"gb", "harry", botMaster⟩ : GraceTimer) ∈
        (disconnectScan harry [("gb", botGame)]).2.2 ∧
      (fireGraceTimer ⟨"gb", "harry", botMaster⟩ [("gb", botGame)]).2 =
          [Event.gameOver "gb" (some "BotMaster") false []
            (some "disconnect timeout")] ∧
        getGame (fireGraceTimer ⟨"gb", "harry", botMaster⟩ [("gb", botGame)]).1 "gb"
          = none := by
  have h := claim8_forfeit harry "gb" botGame botMaster (by decide) (by decide)
  exact ⟨h.1 [("gb", botGame)] (List.mem_singleton.mpr rfl), h.2 [("gb", botGame)]⟩

/-- Claim C9 as amended: a rejoin request rebinds the first registered
game whose usernames map contains the identity - the timer keyed by the
identity is cleared, the handles rebound, board and stored turn left
unchanged - and emits a snapshot whose turn flag is
(stored turn == new socket id); rejoinFailed is emitted exactly when no
registered game contains the identity. -/
theorem claim9_rejoin (sock : Player) (username : String) (gid : String)
    (game : Game) (rest : Games) (old : String)
    (h : game.usernames username = some old) :
    (∃ game2 : Game,
      rejoinScan sock username ((gid, game) :: rest) =
          ((gid, game2) :: rest,
           [Event.rejoinSuccess gid (decide (game.turn = sock.id))
              (((game.players.map fun p => if p.id = old then sock else p).find?
                  fun p => p.id ≠ sock.id).map Player.username),
            Event.playerRejoined gid]) ∧
        game2.board = game.board ∧
        game2.turn = game.turn ∧
        game2.disconnectTimers username = false ∧
        game2.usernames username = some sock.id) ∧
      ∀ gs : Games, (∀ e ∈ gs, e.2.usernames username = none) →
        rejoinScan sock username gs = (gs, [Event.rejoinFailed]) := by
  constructor
  · refine ⟨{ game with
        symbols := setKey (setKey game.symbols sock.id (game.symbols old)) old none
        usernames := setKey game.usernames username (some sock.id)
        players := game.players.map fun p => if p.id = old then sock else p
        disconnectTimers := fun u => if u = username then false
          else game.disconnectTimers u }, ?_, rfl, rfl, ?_, ?_⟩
    · unfold rejoinScan
      rw [h]
    · simp
    · simp [setKey]
  · intro gs
    induction gs with
    | nil => intro h2; rfl
    | cons hd tl ih =>
      intro hall
      have hhd := hall hd (List.mem_cons_self hd tl)
      obtain ⟨gid0, g0⟩ := hd
      unfold rejoinScan
      rw [hhd, ih fun e he => hall e (List.mem_cons_of_mem _ he)]

/-- Witness for claim C9: bob rejoins on socket "b2" into the concrete
game "g9"; the rebind succeeds, the board and stored turn are unchanged,
the timer key is cleared, and a registry with no game containing "bob"
reports rejoinFailed. -/
theorem claim9_witness :
    (∃ game2 : Game,
      rejoinScan bobNew "bob" (("g9", demoGame9) :: []) =
          (("g9", game2) :: [],
           [Event.rejoinSuccess "g9" (decide (demoGame9.turn = bobNew.id))
              (((demoGame9.players.map fun p => if p.id = "b1" then bobNew else p).find?
                  fun p => p.id ≠ bobNew.id).map Player.username),
            Event.playerRejoined "g9"]) ∧
        game2.board = demoGame9.board ∧
        game2.turn = demoGame9.turn ∧
        game2.disconnectTimers "bob" = false ∧
        game2.usernames "bob" = some bobNew.id) ∧
      ∀ gs : Games, (∀ e ∈ gs, e.2.usernames "bob" = none) →
        rejoinScan bobNew "bob" gs = (gs, [Event.rejoinFailed]) :=
  claim9_rejoin bobNew "bob" "g9" demoGame9 [] "b1" rfl

/-- Unpacked reading of the scan condition. -/
lemma goodCell_spec {b : Board} {s : Symbol} {r c : Int}
    (h : goodCell b s r c = true) :
    0 ≤ r ∧ 0 ≤ c ∧ r < 6 ∧ c < 7 ∧ b r.toNat c.toNat = some s := by
  unfold goodCell at h
  simp only [Bool.and_eq_true, decide_eq_true_eq] at h
  exact ⟨h.1.1.1.1, h.1.1.1.2, h.1.1.2, h.1.2, h.2⟩

/-- The three-step unrolling of the scan loop at its initial fuel. -/
lemma scanLine_two_eq_some (b : Board) (s : Symbol) (dr dc nr nc : Int)
    (ps ps2 : List (Nat × Nat)) :
    scanLine b s dr dc 2 nr nc ps = some ps2 ↔
      goodCell b s nr nc = true ∧
        goodCell b s (nr + dr) (nc + dc) = true ∧
        goodCell b s (nr + dr + dr) (nc + dc + dc) = true ∧
        ps2 = ps ++ [(nr.toNat, nc.toNat), ((nr + dr).toNat, (nc + dc).toNat),
          ((nr + dr + dr).toNat, (nc + dc + dc).toNat)] := by
  by_cases h1 : goodCell b s nr nc = true
  · by_cases h2 : goodCell b s (nr + dr) (nc + dc) = true
    · by_cases h3 : goodCell b s (nr + dr + dr) (nc + dc + dc) = true
      · simp [scanLine, h1, h2, h3, eq_comm]
      · simp [scanLine, h1, h2, h3]
    · simp [scanLine, h1, h2]
  · simp [scanLine, h1]

/-- `findSome?` succeeds exactly when the function succeeds somewhere. -/
lemma findSome?_isSome_iff {α β : Type} (f : α → Option β) :
    ∀ l : List α, (l.findSome? f).isSome = true ↔ ∃ a ∈ l, (f a).isSome = true := by
  intro l
  induction l with
  | nil => simp
  | cons a l ih =>
    rw [List.findSome?_cons]
    cases h : f a with
    | some v => simp [h]
    | none => simp [h, ih]

/-- The seed-cell scan succeeds exactly when the seed holds the symbol
and some direction carries three further matching in-grid steps. -/
lemma checkCell_isSome_iff (b : Board) (s : Symbol) (r c : Nat) :
    (checkCell b s r c).isSome = true ↔
      b r c = some s ∧ ∃ d ∈ directions,
        goodCell b s ((r : Int) + d.1) ((c : Int) + d.2) = true ∧
        goodCell b s ((r : Int) + d.1 + d.1) ((c : Int) + d.2 + d.2) = true ∧
        goodCell b s ((r : Int) + d.1 + d.1 + d.1) ((c : Int) + d.2 + d.2 + d.2)
          = true := by
  unfold checkCell
  by_cases hb : b r c = some s
  · rw [if_pos hb]
    rw [findSome?_isSome_iff]
    constructor
    · rintro ⟨d, hd, hsome⟩
      rcases Option.isSome_iff_exists.mp hsome with ⟨ps2, hps⟩
      rw [scanLine_two_eq_some] at hps
      exact ⟨hb, d, hd, hps.1, hps.2.1, hps.2.2.1⟩
    · rintro ⟨-, d, hd, g1, g2, g3⟩
      refine ⟨d, hd, ?_⟩
      rw [Option.isSome_iff_exists]
      exact ⟨_, (scanLine_two_eq_some b s d.1 d.2 _ _ _ _).mpr ⟨g1, g2, g3, rfl⟩⟩
  · rw [if_neg hb]
    simp [hb]

/-- The full scan succeeds exactly when some seed cell succeeds. -/
lemma checkWinner_isWinner_iff (b : Board) (s : Symbol) :
    (checkWinner b s).isWinner = true ↔
      ∃ r, r < 6 ∧ ∃ c, c < 7 ∧ (checkCell b s r c).isSome = true := by
  unfold checkWinner
  cases houter : (List.range 6).findSome?
      (fun r => (List.range 7).findSome? fun c => checkCell b s r c) with
  | some ps =>
    simp only [true_iff]
    rcases List.exists_of_findSome?_eq_some houter with ⟨r, hrmem, hinner⟩
    rcases List.exists_of_findSome?_eq_some hinner with ⟨c, hcmem, hcell⟩
    exact ⟨r, List.mem_range.mp hrmem, c, List.mem_range.mp hcmem, by simp [hcell]⟩
  | none =>
    constructor
    · intro h
      simp at h
    · rintro ⟨r, hr, c, hc, hcell⟩
      rw [List.findSome?_eq_none_iff] at houter
      have hinner := houter r (List.mem_range.mpr hr)
      rw [List.findSome?_eq_none_iff] at hinner
      have hnone := hinner c (List.mem_range.mpr hc)
      rw [hnone] at hcell
      simp at hcell

/-- Reading `goodCell` at an in-grid seed cell. -/
lemma goodCell_self_iff (b : Board) (s : Symbol) (r c : Nat)
    (hr : r < 6) (hc : c < 7) :
    goodCell b s (r : Int) (c : Int) = true ↔ b r c = some s := by
  unfold goodCell
  simp only [Bool.and_eq_true, decide_eq_true_eq, Int.toNat_natCast]
  constructor
  · rintro ⟨-, h⟩
    exact h
  · intro h
    exact ⟨⟨⟨⟨by omega, by omega⟩, by omega⟩, by omega⟩, h⟩

/-- The spec's run of four matches the scan's seed-plus-three-steps form. -/
lemma run_iff (b : Board) (s : Symbol) (r c : Nat) (d : Int × Int)
    (hr : r < 6) (hc : c < 7) :
    (∀ i : Nat, i < 4 →
        goodCell b s ((r : Int) + i * d.1) ((c : Int) + i * d.2) = true) ↔
      b r c = some s ∧
        goodCell b s ((r : Int) + d.1) ((c : Int) + d.2) = true ∧
        goodCell b s ((r : Int) + d.1 + d.1) ((c : Int) + d.2 + d.2) = true ∧
        goodCell b s ((r : Int) + d.1 + d.1 + d.1) ((c : Int) + d.2 + d.2 + d.2)
          = true := by
  have e0 : ∀ a x : Int, a + ((0 : Nat) : Int) * x = a := by intro a x; push_cast; ring
  have e1 : ∀ a x : Int, a + ((1 : Nat) : Int) * x = a + x := by
    intro a x; push_cast; ring
  have e2 : ∀ a x : Int, a + ((2 : Nat) : Int) * x = a + x + x := by
    intro a x; push_cast; ring
  have e3 : ∀ a x : Int, a + ((3 : Nat) : Int) * x = a + x + x + x := by
    intro a x; push_cast; ring
  constructor
  · intro h
    have h0 := h 0 (by omega)
    have h1 := h 1 (by omega)
    have h2 := h 2 (by omega)
    have h3 := h 3 (by omega)
    rw [e0, e0] at h0
    rw [e1, e1] at h1
    rw [e2, e2] at h2
    rw [e3, e3] at h3
    exact ⟨(goodCell_self_iff b s r c hr hc).mp h0, h1, h2, h3⟩
  · rintro ⟨hb, g1, g2, g3⟩ i hi
    interval_cases i
    · rw [e0, e0]
      exact (goodCell_self_iff b s r c hr hc).mpr hb
    · rw [e1, e1]
      exact g1
    · rw [e2, e2]
      exact g2
    · rw [e3, e3]
      exact g3

/-- The spec-side four-in-a-row test succeeds exactly when some seed cell
scan succeeds. -/
lemma fourInARow_iff (b : Board) (s : Symbol) :
    fourInARow b s = true ↔
      ∃ r, r < 6 ∧ ∃ c, c < 7 ∧ (checkCell b s r c).isSome = true := by
  unfold fourInARow
  simp only [List.any_eq_true, List.all_eq_true, List.mem_range]
  constructor
  · rintro ⟨r, hr, c, hc, d, hd, hall⟩
    rw [run_iff b s r c d hr hc] at hall
    exact ⟨r, hr, c, hc, (checkCell_isSome_iff b s r c).mpr
      ⟨hall.1, d, hd, hall.2.1, hall.2.2.1, hall.2.2.2⟩⟩
  · rintro ⟨r, hr, c, hc, hcell⟩
    rw [checkCell_isSome_iff] at hcell
    rcases hcell with ⟨hb, d, hd, g1, g2, g3⟩
    refine ⟨r, hr, c, hc, d, hd, ?_⟩
    rw [run_iff b s r c d hr hc]
    exact ⟨hb, g1, g2, g3⟩

/-- Claim C1: the win detector reports a winner exactly when the board
contains four same-symbol cells contiguous along a row, a column, or
either diagonal, and on success its reported line is a 4-cell winning
line. -/
theorem claim1_win_detector (b : Board) (s : Symbol) :
    (checkWinner b s).isWinner = fourInARow b s ∧
      ((checkWinner b s).isWinner = true →
        isWinLine b s (checkWinner b s).winningPositions) := by
  constructor
  · have hiff : (checkWinner b s).isWinner = true ↔ fourInARow b s = true := by
      rw [checkWinner_isWinner_iff, fourInARow_iff]
    cases hcw : (checkWinner b s).isWinner <;> cases hf : fourInARow b s <;>
        rw [hcw, hf] at hiff <;>
      first
        | rfl
        | exact hiff.mpr rfl
        | exact (hiff.mp rfl).symm
  · intro hwin
    unfold checkWinner at hwin
    cases houter : (List.range 6).findSome?
        (fun r => (List.range 7).findSome? fun c => checkCell b s r c) with
    | none => rw [houter] at hwin; simp at hwin
    | some ps =>
      have hcw : checkWinner b s = ⟨true, ps⟩ := by unfold checkWinner; rw [houter]
      rw [hcw]
      show isWinLine b s ps
      rcases List.exists_of_findSome?_eq_some houter with ⟨r, hrmem, hinner⟩
      rcases List.exists_of_findSome?_eq_some hinner with ⟨c, hcmem, hcell⟩
      have hr : r < 6 := List.mem_range.mp hrmem
      have hc : c < 7 := List.mem_range.mp hcmem
      unfold checkCell at hcell
      by_cases hb : b r c = some s
      · rw [if_pos hb] at hcell
        rcases List.exists_of_findSome?_eq_some hcell with ⟨d, hd, hscan⟩
        rw [scanLine_two_eq_some] at hscan
        obtain ⟨g1, g2, g3, hps⟩ := hscan
        obtain ⟨ga1, ga2, ga3, ga4, ga5⟩ := goodCell_spec g1
        obtain ⟨gb1, gb2, gb3, gb4, gb5⟩ := goodCell_spec g2
        obtain ⟨gc1, gc2, gc3, gc4, gc5⟩ := goodCell_spec g3
        refine ⟨d.1, d.2, by simpa using hd,
          (r, c),
          (((r : Int) + d.1).toNat, ((c : Int) + d.2).toNat),
          (((r : Int) + d.1 + d.1).toNat, ((c : Int) + d.2 + d.2).toNat),
          (((r : Int) + d.1 + d.1 + d.1).toNat, ((c : Int) + d.2 + d.2 + d.2).toNat),
          by rw [hps]; rfl, ?_, ?_, ?_, ?_⟩
        · intro p hp
          rw [hps] at hp
          simp only [List.cons_append, List.nil_append, List.mem_cons,
            List.not_mem_nil, or_false] at hp
          rcases hp with h | h | h | h <;> subst h <;> refine ⟨?_, ?_, ?_⟩ <;>
            dsimp only
          · exact hr
          · exact hc
          · exact hb
          · omega
          · omega
          · exact ga5
          · omega
          · omega
          · exact gb5
          · omega
          · omega
          · exact gc5
        · refine ⟨?_, ?_⟩ <;> dsimp only <;> omega
        · refine ⟨?_, ?_⟩ <;> dsimp only <;> omega
        · refine ⟨?_, ?_⟩ <;> dsimp only <;> omega
      · rw [if_neg hb] at hcell
        simp at hcell

/-- Witness for claim C1 at a concrete winning board: the detector and
the spec-side test agree and the reported line is a winning line. -/
theorem claim1_witness :
    (checkWinner demoWinBoard Symbol.X).isWinner = fourInARow demoWinBoard Symbol.X ∧
      isWinLine demoWinBoard Symbol.X
        (checkWinner demoWinBoard Symbol.X).winningPositions :=
  ⟨(claim1_win_detector demoWinBoard Symbol.X).1,
   (claim1_win_detector demoWinBoard Symbol.X).2 (by decide)⟩

/-- Claim C10, the code bug: a move request for column 7 is not rejected
and does not fail loudly - `dropDisc` reports row 5 as a success and
writes the disc at (5, 7), outside the 6x7 grid, and `handleMove`
broadcasts the move and flips the turn as if the move were legal. -/
theorem claim10_out_of_range_write :
    (dropDisc createEmptyBoard 7 (some Symbol.X)).2 = 5 ∧
      (dropDisc createEmptyBoard 7 (some Symbol.X)).1 5 7 = some Symbol.X ∧
      (handleMove pat "gx" 7 demoGames10).events =
        [Event.moveMade "gx" 7 5 Symbol.X] ∧
      ((getGame (handleMove pat "gx" 7 demoGames10).games "gx").map Game.turn) =
        some "p2" := by
  decide

end Connect4

